import Mathlib

set_option maxHeartbeats 1000000

/-!
Shallow embedding of the TXMB validator (sources: validateTXMB.py,
validateFasta.py, validateMetadataRecord.py, validateMetadataTable.py).

Python strings are Lean `String`s, Python lists are Lean `List`s, Python dicts
(which preserve insertion order) are association lists (`PyDict`), and Python
exceptions that can escape a modelled function are made explicit with
`Except PyExn`.  File reading (gzip, pandas, open) is a collaborator excluded
by the spec; the modelled functions receive file contents as line lists or
parsed values, exactly as the Python code receives them after its I/O calls.
-/

/-- Exceptions that modelled Python code can raise. -/
inductive PyExn where
| keyError (key : String)
| indexError
deriving DecidableEq, Repr

/-- A Python dict with string keys and values: insertion-ordered assoc list. -/
abbrev PyDict := List (String × String)

/-- Python `d[k]` as an `Option` (callers turn `none` into `PyExn.keyError`). -/
def dget (d : PyDict) (k : String) : Option String :=
  (d.find? (fun p => p.1 == k)).map (fun p => p.2)

/-- Python `d[k] = v`: overwrite in place if the key exists, else append. -/
def dset (d : PyDict) (k v : String) : PyDict :=
  if d.any (fun p => p.1 == k) then
    d.map (fun p => if p.1 == k then (k, v) else p)
  else d ++ [(k, v)]

/-- Python `str(list_of_strings)`, e.g. `['a', 'b']`. -/
def pyListRepr (l : List String) : String :=
  "[" ++ String.intercalate ", " (l.map (fun s => "'" ++ s ++ "'")) ++ "]"

/-- Python whitespace (the ASCII characters matched by `str.strip` and `\s`). -/
def isPyWs (c : Char) : Bool := [' ', '\t', '\n', '\r', '\x0b', '\x0c'].contains c

/-- Python `s.rstrip()`. -/
def pyRstrip (s : String) : String := ⟨(s.data.reverse.dropWhile isPyWs).reverse⟩

/-- Python `s.strip()`. -/
def pyStrip (s : String) : String :=
  ⟨((s.data.dropWhile isPyWs).reverse.dropWhile isPyWs).reverse⟩

/-- Python `s.lower()` (ASCII case folding). -/
def pyLower (s : String) : String := ⟨s.data.map Char.toLower⟩

/-- Lexicographic code-point comparison of character lists (Python `<=`). -/
def pyCharListLe : List Char → List Char → Bool
  | [], _ => true
  | _ :: _, [] => false
  | a :: as, b :: bs =>
    if a.val < b.val then true
    else if b.val < a.val then false
    else pyCharListLe as bs

/-- Python `s <= t` on strings: lexicographic by Unicode code points. -/
def pyStrLe (s t : String) : Bool := pyCharListLe s.data t.data

/-- Python `s.split(None, 1)`: drop leading whitespace, take the first
whitespace-delimited token, drop the separating whitespace run, and keep the
remainder whole; empty pieces are not produced. -/
def pySplitWs1 (s : String) : List String :=
  let cs := s.data.dropWhile isPyWs
  if cs.isEmpty then []
  else
    let tok := cs.takeWhile (fun c => !isPyWs c)
    let rest := (cs.drop tok.length).dropWhile isPyWs
    if rest.isEmpty then [⟨tok⟩] else [⟨tok⟩, ⟨rest⟩]

/-- Python `re.match` with a pattern of the form `^[class]*$`.  Python `$`
(without MULTILINE) matches at the end of the string or just before a trailing
newline, so a line whose body is in the class and that ends in `'\n'` matches. -/
def pyMatchClassStar (cls : Char → Bool) (s : String) : Bool :=
  s.data.all cls || (s.data.getLast? == some '\n' && s.data.dropLast.all cls)

/-- Python `re.match` with a pattern of the form `^[class]+$` (at least one
character before the `$`, same trailing-newline behaviour). -/
def pyMatchClassPlus (cls : Char → Bool) (s : String) : Bool :=
  (!s.data.isEmpty && s.data.all cls) ||
    (s.data.getLast? == some '\n' && !s.data.dropLast.isEmpty &&
      s.data.dropLast.all cls)

/-- Python `re.match` with a single-character-class pattern such as `\s` or
`[efij...]`: anchored at the start, so it only tests the first character. -/
def pyMatchStartClass (cls : Char → Bool) (s : String) : Bool :=
  match s.data with
  | [] => false
  | c :: _ => cls c

/-- The class `[A-Za-z0-9_]` (Python `re` on `str` patterns is ASCII here). -/
def isWordChar (c : Char) : Bool := c.isAlpha || c.isDigit || c == '_'

/-- The class `[A-Za-z0-9_ ]`. -/
def isWordSpaceChar (c : Char) : Bool := isWordChar c || c == ' '

/-- The class `[A-Za-z0-9_.]`. -/
def isVersionChar (c : Char) : Bool := isWordChar c || c == '.'

namespace validateFasta

/-- The character class of `nucleotide_regex = "^[ATCGactgRYSWKMBDHVryswkmbdhvNn]*$"`. -/
def nucleotide_chars : List Char :=
  ['A', 'T', 'C', 'G', 'a', 'c', 't', 'g', 'R', 'Y', 'S', 'W', 'K', 'M',
   'B', 'D', 'H', 'V', 'r', 'y', 's', 'w', 'k', 'm', 'b', 'd', 'h', 'v',
   'N', 'n']

/-- The character class of `non_nucleotide_regex = "[efijlopquxzEFIJLOPQUXZ]"`. -/
def non_nucleotide_chars : List Char :=
  ['e', 'f', 'i', 'j', 'l', 'o', 'p', 'q', 'u', 'x', 'z',
   'E', 'F', 'I', 'J', 'L', 'O', 'P', 'Q', 'U', 'X', 'Z']

def isNucChar (c : Char) : Bool := nucleotide_chars.contains c

def isNonNucChar (c : Char) : Bool := non_nucleotide_chars.contains c

/-- validateFasta.check_sequence: a line matching the nucleotide regex is
valid; otherwise the whitespace, non-nucleotide and null diagnoses each add a
message, and if none applies the generic "could not be diagnosed" message is
added. -/
def check_sequence (sequence_line : String) (linecount : Nat) : List String :=
  if pyMatchClassStar isNucChar sequence_line then []
  else
    let errs :=
      (if pyMatchStartClass isPyWs sequence_line then
        ["Sequence at line " ++ toString linecount ++ " contains whitespace"]
       else []) ++
      (if pyMatchStartClass isNonNucChar sequence_line then
        ["Sequence at line " ++ toString linecount ++
          " contains non-nucleotide characters"]
       else []) ++
      (if sequence_line = "" then
        ["Sequence at line " ++ toString linecount ++ " is null"]
       else [])
    if errs.isEmpty then
      ["Sequence errors at line " ++ toString linecount ++
        ", could not be diagnosed"]
    else errs

/-- Python `s.split('|')` on the character list of `s` (never returns `[]`). -/
def pySplitPipe : List Char → List (List Char)
  | [] => [[]]
  | c :: rest =>
    match pySplitPipe rest with
    | [] => [[]]
    | seg :: segs => if c = '|' then [] :: seg :: segs else (c :: seg) :: segs

/-- validateFasta.check_identifier: split the line on `|`, drop the leading
`>` of the first segment, and look the identifier up in `remaining_ids`.
On a miss the returned index stays at its initial value 0.
(`pySplitPipe` never returns `[]`, so `headD` is exact for `line_content[0]`.) -/
def check_identifier (id_line : String) (remaining_ids : List String)
    (linecount : Nat) : List String × Nat :=
  let line_content : List String := (pySplitPipe id_line.data).map (⟨·⟩)
  let identifier_section := line_content.headD ""
  let identifier : String := ⟨identifier_section.data.drop 1⟩
  match remaining_ids.indexOf? identifier with
  | some i => ([], i)
  | none =>
    (["FASTA identifier '" ++ identifier ++ "' at line " ++ toString linecount
        ++ " does not match anything in metadata table"], 0)

/-- The loop state of validate_txmb_fasta: the string `line_flag`
(`""`, `"id"` or `"se"`), the `remaining_ids` ledger, and `fasta_errors`. -/
structure FastaState where
  flag : String
  remaining : List String
  errors : List String
deriving DecidableEq, Repr

def two_ids_msg (linecount : Nat) : String :=
  "Two consecutive ID lines in FASTA at line " ++ toString linecount

def two_seqs_msg (linecount : Nat) : String :=
  "Two consecutive sequence lines in FASTA at line " ++ toString linecount

/-- One iteration of the `for line in fasta_file` loop of validate_txmb_fasta.
`line[0]` on an empty string raises IndexError; `remaining_ids.pop(id_index)`
raises IndexError when the index is out of range (the ledger is empty).  Note
that the pop is unconditional: it happens even when check_identifier found no
match and returned the initial index 0. -/
def fastaLineStep (st : FastaState) (line : String) (linecount : Nat) :
    Except PyExn FastaState :=
  match line.data with
  | [] => .error .indexError
  | c :: _ =>
    if c = '>' then
      if st.flag == "se" || st.flag == "" then
        let (id_line_errors, id_index) :=
          check_identifier line st.remaining linecount
        if id_index < st.remaining.length then
          .ok ⟨"id", st.remaining.eraseIdx id_index,
               st.errors ++ id_line_errors⟩
        else .error .indexError
      else if st.flag == "id" then
        .ok ⟨st.flag, st.remaining, st.errors ++ [two_ids_msg linecount]⟩
      else .ok st
    else
      if st.flag == "id" then
        .ok ⟨"se", st.remaining,
             st.errors ++ check_sequence line linecount⟩
      else if st.flag == "se" then
        .ok ⟨st.flag, st.remaining, st.errors ++ [two_seqs_msg linecount]⟩
      else .ok st

/-- The whole `for line in fasta_file` loop; `linecount` is incremented before
each line is handled. -/
def fastaLoop : List String → FastaState → Nat → Except PyExn FastaState
  | [], st, _ => .ok st
  | l :: ls, st, linecount =>
    match fastaLineStep st l (linecount + 1) with
    | .error e => .error e
    | .ok st' => fastaLoop ls st' (linecount + 1)

/-- The `if remaining_ids:` report block: the message string keeps growing
inside the loop and the growing message is appended once per identifier. -/
def unmatchedErrors (remaining : List String) : List String :=
  if remaining.isEmpty then []
  else
    (remaining.foldl
      (fun (acc : String × List String) identifier =>
        let m := acc.1 ++ identifier ++ "\n"
        (m, acc.2 ++ [m]))
      ("The following identifiers found in the metadata table were not found "
        ++ "in the FASTA file:\n", [])).2

/-- validateFasta.validate_txmb_fasta on the line sequence of an (already
opened and decompressed) FASTA file. -/
def validate_txmb_fasta (lines : List String) (table_identifiers : List String) :
    Except PyExn (List String) :=
  match fastaLoop lines ⟨"", table_identifiers, []⟩ 0 with
  | .error e => .error e
  | .ok st =>
    let errs := st.errors ++ unmatchedErrors st.remaining
    let errs := errs ++
      (if lines.length % 2 ≠ 0 then
        ["Input FASTA does not contain an even number of lines"]
       else [])
    .ok errs

end validateFasta

namespace validateMetadataRecord

def field_length_limit : Nat := 50

/-- The pattern string of `character_regex`. -/
def character_regex_pattern : String := "^[A-Za-z0-9_]+$"

/-- The pattern string of `character_regex_with_space`. -/
def character_regex_with_space_pattern : String := "^[A-Za-z0-9_ ]+$"

/-- The pattern string of `tax_version_regex` in validate_local_taxonomy_version. -/
def tax_version_regex_pattern : String := "^[A-Za-z0-9_.]+$"

/-- get_regex_mismatch_error_text (the second argument of the source function
is a compiled regex; its `.pattern` string is what reaches the message). -/
def get_regex_mismatch_error_text (field_name pattern : String) : String :=
  "Value entered for '" ++ field_name ++ "' does not match regex '" ++
    pattern ++ "'"

def get_field_length_error_text (field_name : String) : String :=
  "Value entered for '" ++ field_name ++ "' exceeds character length limit of "
    ++ toString field_length_limit

def get_empty_mandatory_value_error (field_name : String) : String :=
  "No value was given for mandatory field '" ++ field_name ++ "'"

/-- validate_file_content.  The source builds the message
`"Required field '{0}' not found in "` but never calls `.format` on it, so the
literal format string (with `{0}` and the dangling "in ") is what is appended. -/
def validate_file_content (metadata_record_dict : PyDict)
    (mandatory_record_content : List String) : List String :=
  mandatory_record_content.foldl
    (fun errs required_field =>
      if metadata_record_dict.any (fun p => p.1 == required_field) then errs
      else errs ++ ["Required field '{0}' not found in "])
    []

/-- The value validate_local_taxonomy returns: a bare error list on the
empty-input short circuit (`return taxonomy_validation_errors`), and the
`(errors, ncbi_tax)` tuple on every other path. -/
inductive LTResult where
| bare (errs : List String)
| pair (errs : List String) (ncbi : Bool)
deriving DecidableEq, Repr

/-- validate_local_taxonomy on a string input.  For a non-empty string the
`str()` conversion check can never fail; the regex and length checks each
append an error; `ncbi_tax` is true exactly when the input is a member of the
tuple `('NCBI', 'ncbi')`. -/
def validate_local_taxonomy (local_taxonomy : String) : LTResult :=
  if local_taxonomy = "" then
    .bare [get_empty_mandatory_value_error "local_taxonomy"]
  else
    let e1 :=
      if pyMatchClassPlus isWordChar local_taxonomy then []
      else [get_regex_mismatch_error_text "local_taxonomy"
              character_regex_pattern]
    let e2 :=
      if local_taxonomy.length ≤ field_length_limit then []
      else [get_field_length_error_text "local_taxonomy"]
    let ncbi := local_taxonomy == "NCBI" || local_taxonomy == "ncbi"
    .pair (e1 ++ e2) ncbi

/-- validate_local_taxonomy_version on a string input: the empty string is
valid and short-circuits, otherwise regex and length checks accumulate. -/
def validate_local_taxonomy_version (local_taxonomy_version : String) :
    List String :=
  if local_taxonomy_version = "" then []
  else
    (if pyMatchClassPlus isVersionChar local_taxonomy_version then []
     else [get_regex_mismatch_error_text "local_taxonomy_version"
             tax_version_regex_pattern]) ++
    (if local_taxonomy_version.length ≤ field_length_limit then []
     else [get_field_length_error_text "local_taxonomy_version"])

/-- validate_dataset_name: regex and length checks, no special empty case
(the empty string simply fails the `+` regex). -/
def validate_dataset_name (reference_dataset_name : String) : List String :=
  (if pyMatchClassPlus isWordChar reference_dataset_name then []
   else [get_regex_mismatch_error_text "reference_dataset_name"
           character_regex_pattern]) ++
  (if reference_dataset_name.length ≤ field_length_limit then []
   else [get_field_length_error_text "reference_dataset_name"])

/-- generate_custom_col_dict.  `str(KeyError(k))` is `"'k'"`, so the formatted
message carries the key name wrapped in an extra pair of quotes. -/
def generate_custom_col_dict (raw_custom_columns : PyDict) :
    List String × PyDict :=
  let n := raw_custom_columns.length
  let e0 := if n % 2 == 0 then []
            else ["Custom columns do not all have definitions"]
  let step := fun (acc : List String × PyDict) (i : Nat) =>
    let key_key := "CUSTOMCOLUMNHEADER" ++ toString (i + 1)
    let val_key := key_key ++ "DESCRIPTION"
    match dget raw_custom_columns key_key with
    | none =>
      (acc.1 ++ ["Expected to find line ''" ++ key_key ++ "'' in manifest file"],
       acc.2)
    | some name =>
      match dget raw_custom_columns val_key with
      | none =>
        (acc.1 ++ ["Expected to find line ''" ++ val_key ++ "'' in manifest file"],
         acc.2)
      | some desc => (acc.1, dset acc.2 name desc)
  let r := (List.range (n / 2)).foldl step (e0, [])
  (r.1, r.2)

/-- validateMetadataRecord.validate_custom_columns: per entry of the custom
column dict, character and length checks on the name and on the description.
The name's regex-mismatch message reports `character_regex.pattern` even
though the check used `character_regex_with_space` (faithful to the source). -/
def validate_custom_columns (record_custom_columns : PyDict) : List String :=
  record_custom_columns.foldl
    (fun errs p =>
      let field_name := "Custom Column: " ++ p.1
      let field_desc := "Column Description: " ++ p.2
      errs ++
      (if pyMatchClassPlus isWordSpaceChar p.1 then []
       else [get_regex_mismatch_error_text field_name character_regex_pattern]) ++
      (if pyMatchClassPlus isWordSpaceChar p.2 then []
       else [get_regex_mismatch_error_text field_desc
               character_regex_with_space_pattern]) ++
      (if p.1.length > field_length_limit then
        [get_field_length_error_text field_name] else []) ++
      (if p.2.length > field_length_limit then
        [get_field_length_error_text field_desc] else []))
    []

end validateMetadataRecord

namespace validateMetadataTable

def field_length_limit : Nat := 50

/-- The result of validate_mandatory_headers.  The Python function mutates the
caller's `input_headers` list in place (via `pop`) and then returns that very
list as the custom headers; the model threads the list state explicitly:
`input_headers` is the final state of the caller's list and `custom` is the
returned `input_custom_headers` value (the alias `input_custom_headers =
input_headers`). -/
structure MHResult where
  errors : List String
  input_headers : List String
  custom : List String
deriving DecidableEq, Repr

def mandatory_header_missing_msg (mandatory_header : String) : String :=
  "A mandatory header, '" ++ mandatory_header ++
    "', could not be found in the input metadata table"

def mandatory_header_summary_msg (mandatory_headers : List String) : String :=
  "One or more mandatory headers were not found in the input table. " ++
    "Mandatory headers: " ++ pyListRepr mandatory_headers

/-- One iteration of the `for mandatory_header in mandatory_headers` loop of
validate_mandatory_headers over the state
`(input_headers, found_headers, errors)`: find the header's index in the
current input list and pop it, collecting the popped value
`input_headers[input_index]` (which is exactly the header searched for) in
`found_headers`; a miss appends an error instead. -/
def mhStep (acc : List String × List String × List String)
    (mandatory_header : String) : List String × List String × List String :=
  match acc.1.indexOf? mandatory_header with
  | some input_index =>
    (acc.1.eraseIdx input_index, acc.2.1 ++ [mandatory_header], acc.2.2)
  | none =>
    (acc.1, acc.2.1,
     acc.2.2 ++ [mandatory_header_missing_msg mandatory_header])

/-- validate_mandatory_headers: the loop above, then the summary error when
the found headers differ from the mandatory list. -/
def validate_mandatory_headers (input_headers mandatory_headers : List String) :
    MHResult :=
  let r := mandatory_headers.foldl mhStep (input_headers, [], [])
  let errs2 :=
    if mandatory_headers ≠ r.2.1 then
      [mandatory_header_summary_msg mandatory_headers]
    else []
  ⟨r.2.2 ++ errs2, r.1, r.1⟩

def undeclared_msg : String :=
  "Custom columns are used in the metadata table without being defined in " ++
    "the metadata record"

def declared_unused_msg : String :=
  "Custom columns are defined in the metadata record without being used in " ++
    "the metadata table"

def count_mismatch_msg : String :=
  "Number of custom headers is mismatched between metadata record and " ++
    "metadata table."

def does_not_exist_msg (header_to_check : String) : String :=
  "A custom header specified in the metadata record, does not exist in the " ++
    "metadata table: " ++ header_to_check

def leftover_msg (table_custom_columns : List String) : String :=
  "One or more headers used in the metadata table were not defined in the " ++
    "metadata record: " ++ pyListRepr table_custom_columns

/-- The `for record_index in range(0, len(record_headers))` loop of
validateMetadataTable.validate_custom_columns: each record header is looked up
in the (shrinking) table list; a hit pops it, a miss appends an error.
Returns the errors and the leftover table headers. -/
def reconcile_loop : List String → List String → List String × List String
  | [], table_custom_columns => ([], table_custom_columns)
  | header_to_check :: rest, table_custom_columns =>
    match table_custom_columns.indexOf? header_to_check with
    | some table_index =>
      reconcile_loop rest (table_custom_columns.eraseIdx table_index)
    | none =>
      let r := reconcile_loop rest table_custom_columns
      (does_not_exist_msg header_to_check :: r.1, r.2)

/-- validateMetadataTable.validate_custom_columns: the four disjoint cases,
with sorting, the count-mismatch check, pairwise removal and the leftover
report in the both-present case. -/
def validate_custom_columns (table_custom_columns : List String)
    (record_custom_columns : PyDict) : List String :=
  let record_headers := record_custom_columns.map (fun p => p.1)
  if table_custom_columns.isEmpty && record_custom_columns.isEmpty then []
  else if !table_custom_columns.isEmpty && record_custom_columns.isEmpty then
    [undeclared_msg]
  else if table_custom_columns.isEmpty && !record_custom_columns.isEmpty then
    [declared_unused_msg]
  else
    let record_sorted :=
      record_headers.insertionSort (fun a b => pyStrLe a b = true)
    let table_sorted :=
      table_custom_columns.insertionSort (fun a b => pyStrLe a b = true)
    let e0 :=
      if record_sorted.length ≠ table_sorted.length then [count_mismatch_msg]
      else []
    let r := reconcile_loop record_sorted table_sorted
    e0 ++ r.1 ++ (if r.2.isEmpty then [] else [leftover_msg r.2])

/-- Python `\d+` at the head of the character list: requires at least one
ASCII digit, consumes the maximal run, returns the rest. -/
def takeDigits1 : List Char → Option (List Char)
  | c :: rest =>
    if c.isDigit then some (rest.dropWhile Char.isDigit) else none
  | [] => none

/-- Python `re.match(r'^<?\d+\.\.>?\d+$', s)` as a Boolean.  The pattern is
deterministic (no backtracking: `<` and `>` are not digits and `.` is not a
digit), and the final `$` also accepts a single trailing newline. -/
def insdc_range_regex_match (s : String) : Bool :=
  let cs1 := match s.data with | '<' :: t => t | l => l
  match takeDigits1 cs1 with
  | none => false
  | some r1 =>
    match r1 with
    | '.' :: '.' :: r2 =>
      let r3 := match r2 with | '>' :: t => t | l => l
      match takeDigits1 r3 with
      | none => false
      | some r4 => r4 == ([] : List Char) || r4 == ['\n']
    | _ => false

def range_without_accession_msg (insdc_sequence_range : String) : String :=
  "An accession range " ++ insdc_sequence_range ++
    " was given for a record with no accession specified"

def invalid_range_msg (insdc_sequence_range : String) : String :=
  "'" ++ insdc_sequence_range ++ "' is not a valid sequence range"

/-- validate_insdc_sequence_range on a string input: empty input is valid and
short-circuits; a non-empty range without a present accession adds the
range-without-accession error and then still runs the format check (the
`TypeError` branch is unreachable for string input). -/
def validate_insdc_sequence_range (insdc_sequence_range : String)
    (accession_present : Bool) : List String :=
  if insdc_sequence_range = "" then []
  else
    (if !accession_present then
      [range_without_accession_msg insdc_sequence_range]
     else []) ++
    (if insdc_range_regex_match insdc_sequence_range then []
     else [invalid_range_msg insdc_sequence_range])

end validateMetadataTable

namespace validateTXMB

def mandatory_record_content : List String :=
  ["LOCALTAXONOMY", "REFERENCEDATASETNAME", "FASTA", "TABLE"]

def optional_record_content : List String := ["LOCALTAXONOMYVERSION"]

def malformed_line_msg (line : String) : String :=
  "The following metadata record line could not be processed. This may be " ++
    "malformed, or a mandatory value was not supplied:\n" ++ line

/-- The outcome of the `for line in record_content` loop of
validate_metadata_record: an uncaught IndexError (`line_content[0]` on a blank
line), the early `return` on a malformed mandatory line, or the completed
record and raw-custom-column dicts. -/
inductive ParseOutcome where
| crash (e : PyExn)
| early (errs : List String) (record : PyDict)
| parsed (record : PyDict) (raw : PyDict)
deriving DecidableEq, Repr

/-- The manifest-line loop: each line is rstripped and split with
`split(None, 1)`; a line that does not split into two parts is skipped unless
its first token is a mandatory key, in which case the function returns
early with the malformed-line error. -/
def parseRecordLines : List String → PyDict → PyDict → ParseOutcome
  | [], record, raw => .parsed record raw
  | line :: rest, record, raw =>
    let l := pyRstrip line
    match pySplitWs1 l with
    | [] => .crash .indexError
    | [k, v] =>
      if mandatory_record_content.contains k then
        parseRecordLines rest (dset record k v) raw
      else if optional_record_content.contains k then
        parseRecordLines rest (dset record k v) raw
      else parseRecordLines rest record (dset raw k v)
    | t :: _ =>
      if mandatory_record_content.contains t then
        .early [malformed_line_msg l] record
      else parseRecordLines rest record raw

/-- validateTXMB.validate_metadata_record on the manifest's line list (file
reading is the excluded collaborator; a missing manifest file is not
modelled).  After validate_file_content, the source indexes
`metadata_record['REFERENCEDATASETNAME']` and `metadata_record['LOCALTAXONOMY']`
without a guard, so a missing mandatory key raises KeyError here; and if
validate_local_taxonomy took its bare-list return (empty value), the
`tax_validation[1]` subscript on the one-element list would raise IndexError. -/
def validate_metadata_record (record_content : List String) :
    Except PyExn (List String × PyDict × PyDict × Bool) :=
  match parseRecordLines record_content [] [] with
  | .crash e => .error e
  | .early errs record => .ok (errs, record, [], false)
  | .parsed record raw =>
    let errs1 :=
      validateMetadataRecord.validate_file_content record
        mandatory_record_content
    match dget record "REFERENCEDATASETNAME" with
    | none => .error (.keyError "REFERENCEDATASETNAME")
    | some name =>
      let errs2 := errs1 ++ validateMetadataRecord.validate_dataset_name name
      match dget record "LOCALTAXONOMY" with
      | none => .error (.keyError "LOCALTAXONOMY")
      | some lt =>
        match validateMetadataRecord.validate_local_taxonomy lt with
        | .bare _ => .error .indexError
        | .pair tax_errs ncbi_tax =>
          let errs3 := errs2 ++ tax_errs
          let errs4 := errs3 ++
            (match dget record "LOCALTAXONOMYVERSION" with
             | some v => validateMetadataRecord.validate_local_taxonomy_version v
             | none => [])
          if raw.isEmpty then .ok (errs4, record, [], ncbi_tax)
          else
            let g := validateMetadataRecord.generate_custom_col_dict raw
            let errs5 := errs4 ++ g.1 ++
              validateMetadataRecord.validate_custom_columns g.2
            .ok (errs5, record, g.2, ncbi_tax)

/-- Marks the stages of validate_txmb that open one of the submitted files
after the manifest: reading the metadata table and reading the FASTA file. -/
inductive StageTag where
| table
| fasta
deriving DecidableEq, Repr

/-- What validate_txmb did: `result = none` models the Python return value
`False` (success) and `result = some msg` the returned failure message;
`stagesRun` records which file-reading stages were invoked; `reports` records
each `report_errors(filename, errors)` call. -/
structure TxmbOutcome where
  result : Option String
  stagesRun : List StageTag
  reports : List (String × List String)
deriving DecidableEq, Repr

def report_filename_of (record : PyDict) : String :=
  match dget record "REFERENCEDATASETNAME" with
  | some name => name ++ ".report"
  | none => "unamed_record.report"

def record_failure_msg (report_filename : String) : String :=
  "Could not validate metadata record, please view error messages in " ++
    report_filename

def table_failure_msg (table_filename report_filename : String) : String :=
  "Could not validate " ++ table_filename ++
    ", please view error messages in " ++ report_filename

/-- The FASTA failure message of the source misses a space: the pieces
`', please view'` and `'error messages in '` are concatenated directly. -/
def fasta_failure_msg (fasta_filename report_filename : String) : String :=
  "Could not validate " ++ fasta_filename ++ ", please viewerror messages in "
    ++ report_filename

/-- The remainder of validate_txmb after the manifest stage has returned its
`(metadata_record_errors, metadata_record, record_custom_columns, ncbi_tax)`
tuple: report-and-stop on manifest errors, otherwise run the table stage on
`metadata_record['TABLE']` (KeyError if absent), report-and-stop on its
errors, otherwise run the FASTA stage on `metadata_record['FASTA']` with the
table stage's identifier list, report-and-stop on its errors, else return the
Python `False` (success). -/
def txmbAfterManifest (metadata_record_errors : List String)
    (metadata_record record_custom_columns : PyDict) (ncbi_tax : Bool)
    (tableStage : String → PyDict → Bool → List String × List String)
    (fastaStage : String → List String → List String) :
    Except PyExn TxmbOutcome :=
  let report_filename := report_filename_of metadata_record
  if !metadata_record_errors.isEmpty then
    .ok ⟨some (record_failure_msg report_filename), [],
         [(report_filename, metadata_record_errors)]⟩
  else
    match dget metadata_record "TABLE" with
    | none => .error (.keyError "TABLE")
    | some table_filename =>
      let t := tableStage table_filename record_custom_columns ncbi_tax
      if !t.1.isEmpty then
        .ok ⟨some (table_failure_msg table_filename report_filename),
             [.table], [(report_filename, t.1)]⟩
      else
        match dget metadata_record "FASTA" with
        | none => .error (.keyError "FASTA")
        | some fasta_filename =>
          let fasta_errors := fastaStage fasta_filename t.2
          if !fasta_errors.isEmpty then
            .ok ⟨some (fasta_failure_msg fasta_filename report_filename),
                 [.table, .fasta], [(report_filename, fasta_errors)]⟩
          else .ok ⟨none, [.table, .fasta], []⟩

/-- validateTXMB.validate_txmb.  The manifest stage is the modelled
validate_metadata_record on the manifest's lines; the table and FASTA stages
(validate_metadata_table / validate_fasta, whose bodies live behind the
excluded pandas/gzip collaborators) are taken as function parameters, called
with exactly the arguments the source passes: the table stage receives the
table filename, the record custom columns and the NCBI flag and returns
`(metadata_table_errors, local_identifiers)`; the FASTA stage receives the
FASTA filename and the surviving identifier list and returns `fasta_errors`. -/
def validate_txmb (manifest_lines : List String)
    (tableStage : String → PyDict → Bool → List String × List String)
    (fastaStage : String → List String → List String) :
    Except PyExn TxmbOutcome :=
  match validate_metadata_record manifest_lines with
  | .error e => .error e
  | .ok (metadata_record_errors, metadata_record, record_custom_columns,
         ncbi_tax) =>
    txmbAfterManifest metadata_record_errors metadata_record
      record_custom_columns ncbi_tax tableStage fastaStage

end validateTXMB

/-!
## Claim theorems
-/

/-- Claim C1 (code bug): the spec says an identifier line whose raw identifier
matches no ledger entry removes nothing from the ledger and that every table
identifier is either matched exactly once or listed in the unmatched report.
The code pops `remaining_ids[id_index]` unconditionally, and `check_identifier`
returns the sentinel index 0 on a miss, so the mismatching line `>B|x` both
raises the mismatch error and silently removes the unrelated ledger entry "A";
the full run then reports "A" neither as matched nor as unmatched. -/
theorem fasta_mismatch_pops_ledger_entry :
    validateFasta.fastaLineStep ⟨"", ["A"], []⟩ ">B|x\n" 1 =
      .ok ⟨"id", [],
        ["FASTA identifier 'B' at line 1 does not match anything in metadata table"]⟩
    ∧ validateFasta.validate_txmb_fasta [">B|x\n", "acgt\n"] ["A"] =
      .ok ["FASTA identifier 'B' at line 1 does not match anything in metadata table"] :=
  ⟨rfl, rfl⟩

/-- Claim C2 (code bug): the spec says the empty sequence line yields exactly
one null-sequence error.  The nucleotide regex `^[...]*$` matches the empty
string (Kleene star), so `check_sequence` returns with no error at all and the
dedicated null-line diagnosis is unreachable for `""`. -/
theorem check_sequence_empty_returns_no_error :
    validateFasta.check_sequence "" 1 = []
    ∧ pyMatchClassStar validateFasta.isNucChar "" = true := by
  exact ⟨rfl, rfl⟩

/-- Claim C5 (code bug): the spec says a missing mandatory manifest field makes
the manifest stage return an error list containing the missing-field error,
with no escaping exception.  In the code, `validate_file_content` does record
the missing-field error, but the immediately following unguarded subscript
`metadata_record['REFERENCEDATASETNAME']` raises KeyError, which escapes
`validate_metadata_record` (and `validate_txmb`), so the error list is never
returned. -/
theorem missing_mandatory_field_raises_key_error :
    validateTXMB.validate_metadata_record
        ["LOCALTAXONOMY NCBI", "FASTA file.fasta.gz", "TABLE file.tsv.gz"] =
      .error (.keyError "REFERENCEDATASETNAME")
    ∧ validateMetadataRecord.validate_file_content
        [("LOCALTAXONOMY", "NCBI"), ("FASTA", "file.fasta.gz"),
         ("TABLE", "file.tsv.gz")]
        validateTXMB.mandatory_record_content =
      ["Required field '{0}' not found in "] :=
  ⟨rfl, rfl⟩

/-- Claim C3, counterexample: the claim says the returned boolean is true iff
the trimmed input case-insensitively equals "NCBI", and that the pair is
returned even on the empty-input short circuit.  On `"Ncbi"` the trimmed
lowercased input is `"ncbi"` yet the code returns the flag `false` (the code
compares against the exact tuple `('NCBI', 'ncbi')`); and on `""` the code
returns the bare error list, not a pair at all. -/
theorem local_taxonomy_ncbi_flag_counterexample :
    validateMetadataRecord.validate_local_taxonomy "Ncbi" = .pair [] false
    ∧ pyLower (pyStrip "Ncbi") = "ncbi"
    ∧ validateMetadataRecord.validate_local_taxonomy "" =
      .bare [validateMetadataRecord.get_empty_mandatory_value_error
               "local_taxonomy"] :=
  ⟨rfl, rfl, rfl⟩

/-- Claim C3, amended: for every non-empty input, validate_local_taxonomy
returns the `(errors, ncbi_tax)` pair, with the boolean computed regardless of
the accumulated errors and true iff the input is exactly `"NCBI"` or `"ncbi"`;
for the empty input only the error list is returned (see the counterexample
for that branch). -/
theorem local_taxonomy_result_shape (s : String) (h : s ≠ "") :
    ∃ errs, validateMetadataRecord.validate_local_taxonomy s =
      .pair errs (s == "NCBI" || s == "ncbi") := by
  unfold validateMetadataRecord.validate_local_taxonomy
  rw [if_neg h]
  exact ⟨_, rfl⟩

/-- Witness for the amended C3 theorem at the inputs "NCBI" and "A_Taxonomy". -/
theorem local_taxonomy_result_shape_witness :
    (∃ errs, validateMetadataRecord.validate_local_taxonomy "NCBI" =
      .pair errs true)
    ∧ (∃ errs, validateMetadataRecord.validate_local_taxonomy "A_Taxonomy" =
      .pair errs false) := by
  constructor
  · have h := local_taxonomy_result_shape "NCBI" (by decide)
    simpa using h
  · have h := local_taxonomy_result_shape "A_Taxonomy" (by decide)
    simpa using h

/-- Claim C8: an empty range is valid regardless of accession presence; a
non-empty range with no present accession yields the range-without-accession
error in addition to (not instead of) the format check, so the well-formed
`"10..20"` without accession yields exactly that one error and an ill-formed
range without accession yields both errors. -/
theorem insdc_range_without_accession (s : String) (ap : Bool) :
    (s = "" → validateMetadataTable.validate_insdc_sequence_range s ap = [])
    ∧ (s ≠ "" → validateMetadataTable.validate_insdc_sequence_range s false =
        validateMetadataTable.range_without_accession_msg s ::
          (if validateMetadataTable.insdc_range_regex_match s then []
           else [validateMetadataTable.invalid_range_msg s]))
    ∧ validateMetadataTable.validate_insdc_sequence_range "10..20" false =
        [validateMetadataTable.range_without_accession_msg "10..20"]
    ∧ validateMetadataTable.validate_insdc_sequence_range "abc" false =
        [validateMetadataTable.range_without_accession_msg "abc",
         validateMetadataTable.invalid_range_msg "abc"] := by
  refine ⟨?_, ?_, rfl, rfl⟩
  · intro h
    subst h
    rfl
  · intro h
    unfold validateMetadataTable.validate_insdc_sequence_range
    rw [if_neg h]
    rfl

/-- Claim C6: an identifier line immediately following another identifier line
appends exactly the one "two consecutive ID lines" error carrying the current
line number, with no state transition and no ledger change; a sequence line
immediately following another sequence line likewise appends exactly the one
"two consecutive sequence lines" error without a transition. -/
theorem fasta_consecutive_line_errors_no_transition
    (rem errs : List String) (line : String) (n : Nat) :
    (line.data.head? = some '>' →
      validateFasta.fastaLineStep ⟨"id", rem, errs⟩ line n =
        .ok ⟨"id", rem, errs ++ [validateFasta.two_ids_msg n]⟩)
    ∧ (∀ c, line.data.head? = some c → c ≠ '>' →
      validateFasta.fastaLineStep ⟨"se", rem, errs⟩ line n =
        .ok ⟨"se", rem, errs ++ [validateFasta.two_seqs_msg n]⟩) := by
  constructor
  · intro h
    cases hdata : line.data with
    | nil => rw [hdata] at h; cases h
    | cons c cs =>
      rw [hdata] at h
      have hc : c = '>' := by simpa using h
      subst hc
      simp only [validateFasta.fastaLineStep, hdata]
      rfl
  · intro c h hc
    cases hdata : line.data with
    | nil => rw [hdata] at h; cases h
    | cons c' cs =>
      rw [hdata] at h
      have hcc : c' = c := by simpa using h
      subst hcc
      simp only [validateFasta.fastaLineStep, hdata]
      rw [if_neg hc]
      rfl

/-- Witness for C6 at the lines `">X"` (after an ID line) and `"acgt"` (after
a sequence line), both at line number 2. -/
theorem fasta_consecutive_line_errors_no_transition_witness :
    validateFasta.fastaLineStep ⟨"id", ["A"], []⟩ ">X" 2 =
      .ok ⟨"id", ["A"], [validateFasta.two_ids_msg 2]⟩
    ∧ validateFasta.fastaLineStep ⟨"se", ["A"], []⟩ "acgt" 2 =
      .ok ⟨"se", ["A"], [validateFasta.two_seqs_msg 2]⟩ :=
  ⟨(fasta_consecutive_line_errors_no_transition ["A"] [] ">X" 2).1 rfl,
   (fasta_consecutive_line_errors_no_transition ["A"] [] "acgt" 2).2 'a' rfl
     (by decide)⟩

/-- A Python-whitespace character is not in the nucleotide character class. -/
theorem ws_char_not_nuc (c : Char) (h : isPyWs c = true) :
    validateFasta.isNucChar c = false := by
  have hm : c ∈ ([' ', '\t', '\n', '\r', '\x0b', '\x0c'] : List Char) := by
    simpa [isPyWs] using h
  fin_cases hm <;> decide

/-- A character of the "non-nucleotide letter" diagnosis class is not in the
nucleotide character class (the two regex classes are disjoint). -/
theorem non_nuc_char_not_nuc (c : Char)
    (h : validateFasta.isNonNucChar c = true) :
    validateFasta.isNucChar c = false := by
  have hm : c ∈ validateFasta.non_nucleotide_chars := by
    simpa [validateFasta.isNonNucChar] using h
  fin_cases hm <;> decide

/-- Claim C10: the whitespace and non-nucleotide diagnoses in check_sequence
use `re.match`, which is anchored at the start of the line; hence every
non-empty line that fails the nucleotide-alphabet check but starts with a
valid nucleotide letter gets exactly the one generic "could not be diagnosed"
error and neither the whitespace nor the non-nucleotide error. -/
theorem sequence_diagnosis_anchored_generic_error (s : String) (n : Nat)
    (c : Char) (cs : List Char) (hdata : s.data = c :: cs)
    (hfail : pyMatchClassStar validateFasta.isNucChar s = false)
    (hnuc : validateFasta.isNucChar c = true) :
    validateFasta.check_sequence s n =
      ["Sequence errors at line " ++ toString n ++ ", could not be diagnosed"] := by
  have hempty : s ≠ "" := by
    intro h
    subst h
    simp at hdata
  have hws : pyMatchStartClass isPyWs s = false := by
    simp only [pyMatchStartClass, hdata]
    by_contra hcon
    have : isPyWs c = true := by
      cases h : isPyWs c
      · exact absurd h hcon
      · rfl
    rw [ws_char_not_nuc c this] at hnuc
    cases hnuc
  have hnn : pyMatchStartClass validateFasta.isNonNucChar s = false := by
    simp only [pyMatchStartClass, hdata]
    by_contra hcon
    have : validateFasta.isNonNucChar c = true := by
      cases h : validateFasta.isNonNucChar c
      · exact absurd h hcon
      · rfl
    rw [non_nuc_char_not_nuc c this] at hnuc
    cases hnuc
  unfold validateFasta.check_sequence
  rw [if_neg (by simp [hfail]), hws, hnn, if_neg hempty]
  rfl

/-- Witness for C10 at the line `"actg actg"` (fails the alphabet check, first
character is the nucleotide letter `a`). -/
theorem sequence_diagnosis_anchored_generic_error_witness :
    validateFasta.check_sequence "actg actg" 1 =
      ["Sequence errors at line " ++ toString 1 ++ ", could not be diagnosed"] :=
  sequence_diagnosis_anchored_generic_error "actg actg" 1 'a'
    ['c', 't', 'g', ' ', 'a', 'c', 't', 'g'] rfl (by decide) (by decide)

/-- Unfolding `indexOf?` one constructor at a time. -/
theorem indexOf?_cons_eq (b a : String) (t : List String) :
    (b :: t).indexOf? a =
      if b == a then some 0 else (t.indexOf? a).map (· + 1) := by
  simp [List.indexOf?, List.findIdx?_cons, List.findIdx?_succ]

/-- Python `list.pop(list.index(a))` is `List.erase`: erasing at the index
found for `a` removes the first occurrence of `a`. -/
theorem eraseIdx_indexOf?_eq_erase (l : List String) (a : String) :
    ∀ i, l.indexOf? a = some i → l.eraseIdx i = l.erase a := by
  induction l with
  | nil => intro i h; cases h
  | cons b t ih =>
    intro i h
    rw [indexOf?_cons_eq] at h
    cases hb : b == a with
    | true =>
      have hb' : b = a := by simpa using hb
      subst hb'
      simp only [hb, if_true] at h
      simp [hb] at h
      cases h
      simp
    | false =>
      simp only [hb, Bool.false_eq_true, if_false, Option.map_eq_some'] at h
      obtain ⟨j, hj, hi⟩ := h
      subst hi
      rw [List.eraseIdx_cons_succ, ih j hj,
          List.erase_cons_tail (by simp [hb])]

/-- If the header is absent, the pop-if-found step leaves the list unchanged,
which is also what `List.erase` does. -/
theorem indexOf?_none_erase (l : List String) (a : String)
    (h : l.indexOf? a = none) : l.erase a = l := by
  rw [List.erase_eq_self_iff]
  intro hmem
  have := (List.indexOf?_eq_none_iff.mp h) a hmem
  simp at this

/-- The input-list component of the validate_mandatory_headers loop is the
fold of first-occurrence erasure over the mandatory headers. -/
theorem mh_fold_input_headers (mandatory : List String) :
    ∀ inp found errs,
      (mandatory.foldl validateMetadataTable.mhStep (inp, found, errs)).1 =
        mandatory.foldl (fun l m => l.erase m) inp := by
  induction mandatory with
  | nil => intro inp found errs; rfl
  | cons m t ih =>
    intro inp found errs
    simp only [List.foldl_cons]
    cases h : inp.indexOf? m with
    | some i =>
      rw [show validateMetadataTable.mhStep (inp, found, errs) m =
            (inp.eraseIdx i, found ++ [m], errs) by
          simp [validateMetadataTable.mhStep, h]]
      rw [ih, eraseIdx_indexOf?_eq_erase inp m i h]
    | none =>
      rw [show validateMetadataTable.mhStep (inp, found, errs) m =
            (inp, found,
             errs ++ [validateMetadataTable.mandatory_header_missing_msg m]) by
          simp [validateMetadataTable.mhStep, h]]
      rw [ih, indexOf?_none_erase inp m h]

/-- Folding first-occurrence erasure never increases the count of an element. -/
theorem count_foldl_erase_le (m : String) (mand : List String) :
    ∀ acc : List String,
      (mand.foldl (fun l x => l.erase x) acc).count m ≤ acc.count m := by
  induction mand with
  | nil => intro acc; exact Nat.le_refl _
  | cons b t ih =>
    intro acc
    refine Nat.le_trans (ih (acc.erase b)) ?_
    rw [List.count_erase]
    exact Nat.sub_le _ _

/-- If an element occurs at most once and is erased once by the fold, it is
gone afterwards. -/
theorem count_foldl_erase_eq_zero (m : String) (mand : List String) :
    ∀ acc : List String, m ∈ mand → acc.count m ≤ 1 →
      (mand.foldl (fun l x => l.erase x) acc).count m = 0 := by
  induction mand with
  | nil => intro acc hmem; cases hmem
  | cons b t ih =>
    intro acc hmem hcount
    by_cases hb : b = m
    · subst hb
      have h0 : (acc.erase b).count b = 0 := by
        rw [List.count_erase_self]
        omega
      have := count_foldl_erase_le b t (acc.erase b)
      simp only [List.foldl_cons]
      omega
    · have hmem' : m ∈ t := by
        cases hmem with
        | head => exact absurd rfl hb
        | tail _ h => exact h
      simp only [List.foldl_cons]
      exact ih (acc.erase b) hmem'
        (by rw [List.count_erase_of_ne (fun h => hb h.symm)]; exact hcount)

/-- Claim C9, counterexample: the claim says that after the call the caller's
header list (returned as the custom headers) contains only non-mandatory
headers.  With a duplicated mandatory header in the input, only the first
occurrence is popped, so the mandatory header `"a"` is still in the returned
list. -/
theorem mandatory_headers_duplicate_counterexample :
    (validateMetadataTable.validate_mandatory_headers ["a", "a"] ["a"]).custom
      = ["a"]
    ∧ "a" ∈ (["a"] : List String) :=
  ⟨rfl, by decide⟩

/-- Claim C9, amended: validate_mandatory_headers removes, in the caller's
list, the first occurrence of each mandatory header found, and returns that
same (final) list as the custom headers; consequently, whenever a mandatory
header occurs at most once in the input, it is absent from the caller's list
after the call. -/
theorem mandatory_headers_in_place_removal (input mandatory : List String) :
    (validateMetadataTable.validate_mandatory_headers input mandatory).custom =
      (validateMetadataTable.validate_mandatory_headers input
        mandatory).input_headers
    ∧ (validateMetadataTable.validate_mandatory_headers input
        mandatory).input_headers =
      mandatory.foldl (fun l m => l.erase m) input
    ∧ ∀ m, m ∈ mandatory → input.count m ≤ 1 →
        m ∉ (validateMetadataTable.validate_mandatory_headers input
              mandatory).input_headers := by
  have hfold :
      (validateMetadataTable.validate_mandatory_headers input
        mandatory).input_headers =
      mandatory.foldl (fun l m => l.erase m) input := by
    unfold validateMetadataTable.validate_mandatory_headers
    exact mh_fold_input_headers mandatory input [] []
  refine ⟨rfl, hfold, ?_⟩
  intro m hmem hcount
  rw [hfold]
  exact List.count_eq_zero.mp
    (count_foldl_erase_eq_zero m mandatory input hmem hcount)

/-- Witness for the amended C9 theorem: two mandatory headers, one custom
header, no duplicates. -/
theorem mandatory_headers_in_place_removal_witness :
    (validateMetadataTable.validate_mandatory_headers
        ["local_identifier", "insdc_sequence_accession", "custom1"]
        ["local_identifier", "insdc_sequence_accession"]).input_headers =
      (["local_identifier", "insdc_sequence_accession"].foldl
        (fun l m => l.erase m)
        ["local_identifier", "insdc_sequence_accession", "custom1"])
    ∧ "local_identifier" ∉
        (validateMetadataTable.validate_mandatory_headers
          ["local_identifier", "insdc_sequence_accession", "custom1"]
          ["local_identifier", "insdc_sequence_accession"]).input_headers :=
  ⟨(mandatory_headers_in_place_removal
      ["local_identifier", "insdc_sequence_accession", "custom1"]
      ["local_identifier", "insdc_sequence_accession"]).2.1,
   (mandatory_headers_in_place_removal
      ["local_identifier", "insdc_sequence_accession", "custom1"]
      ["local_identifier", "insdc_sequence_accession"]).2.2
     "local_identifier" (by decide) (by decide)⟩

/-- Claim C4: validate_txmb short-circuits per stage.  If the manifest stage
returns errors, the table and FASTA stages are never invoked (their files
never opened) and exactly the manifest errors are reported; if the table
stage returns errors, the FASTA stage is never invoked and exactly the table
errors are reported; the success value (Python `False`, modelled as `result =
none`) is returned exactly when all three stages returned zero errors, in
which case nothing is reported. -/
theorem txmb_stage_short_circuit
    (ls : List String)
    (tableStage : String → PyDict → Bool → List String × List String)
    (fastaStage : String → List String → List String)
    (mre : List String) (record rcc : PyDict) (ncbi : Bool)
    (h : validateTXMB.validate_metadata_record ls =
      .ok (mre, record, rcc, ncbi)) :
    (mre ≠ [] →
      validateTXMB.validate_txmb ls tableStage fastaStage =
        .ok ⟨some (validateTXMB.record_failure_msg
                (validateTXMB.report_filename_of record)), [],
             [(validateTXMB.report_filename_of record, mre)]⟩)
    ∧ (∀ tf, mre = [] → dget record "TABLE" = some tf →
        (tableStage tf rcc ncbi).1 ≠ [] →
        validateTXMB.validate_txmb ls tableStage fastaStage =
          .ok ⟨some (validateTXMB.table_failure_msg tf
                  (validateTXMB.report_filename_of record)),
               [.table],
               [(validateTXMB.report_filename_of record,
                 (tableStage tf rcc ncbi).1)]⟩)
    ∧ (∀ tf ff, mre = [] → dget record "TABLE" = some tf →
        dget record "FASTA" = some ff →
        (tableStage tf rcc ncbi).1 = [] →
        fastaStage ff (tableStage tf rcc ncbi).2 = [] →
        validateTXMB.validate_txmb ls tableStage fastaStage =
          .ok ⟨none, [.table, .fasta], []⟩)
    ∧ (∀ o, validateTXMB.validate_txmb ls tableStage fastaStage = .ok o →
        o.result = none →
        mre = [] ∧ ∃ tf ff, dget record "TABLE" = some tf ∧
          dget record "FASTA" = some ff ∧
          (tableStage tf rcc ncbi).1 = [] ∧
          fastaStage ff (tableStage tf rcc ncbi).2 = []) := by
  have hv : validateTXMB.validate_txmb ls tableStage fastaStage =
      validateTXMB.txmbAfterManifest mre record rcc ncbi tableStage
        fastaStage := by
    unfold validateTXMB.validate_txmb
    rw [h]
  refine ⟨?_, ?_, ?_, ?_⟩
  · intro hne
    rw [hv]
    cases mre with
    | nil => exact absurd rfl hne
    | cons e es => rfl
  · intro tf h0 hdt hne
    subst h0
    rw [hv]
    unfold validateTXMB.txmbAfterManifest
    simp only [hdt]
    cases hts : (tableStage tf rcc ncbi).1 with
    | nil => exact absurd hts hne
    | cons e es => rfl
  · intro tf ff h0 hdt hdf hts hfs
    subst h0
    rw [hv]
    unfold validateTXMB.txmbAfterManifest
    simp only [hdt, hts, hdf, hfs]
    rfl
  · intro o ho hres
    rw [hv] at ho
    cases hm : mre with
    | cons e es =>
      subst hm
      have ho' : (Except.ok
          (⟨some (validateTXMB.record_failure_msg
              (validateTXMB.report_filename_of record)), [],
            [(validateTXMB.report_filename_of record, e :: es)]⟩ :
            validateTXMB.TxmbOutcome) :
          Except PyExn validateTXMB.TxmbOutcome) = .ok o := ho
      injection ho' with ho2
      subst ho2
      exact Option.noConfusion hres
    | nil =>
      subst hm
      unfold validateTXMB.txmbAfterManifest at ho
      cases hdt : dget record "TABLE" with
      | none =>
        rw [hdt] at ho
        simp at ho
      | some tf =>
        rw [hdt] at ho
        simp only [] at ho
        cases hts : (tableStage tf rcc ncbi).1 with
        | cons e es =>
          rw [hts] at ho
          have ho' : (Except.ok
              (⟨some (validateTXMB.table_failure_msg tf
                  (validateTXMB.report_filename_of record)), [.table],
                [(validateTXMB.report_filename_of record, e :: es)]⟩ :
                validateTXMB.TxmbOutcome) :
              Except PyExn validateTXMB.TxmbOutcome) = .ok o := ho
          injection ho' with ho2
          subst ho2
          exact Option.noConfusion hres
        | nil =>
          rw [hts] at ho
          cases hdf : dget record "FASTA" with
          | none =>
            rw [hdf] at ho
            simp at ho
          | some ff =>
            rw [hdf] at ho
            simp only [] at ho
            cases hfs : fastaStage ff (tableStage tf rcc ncbi).2 with
            | cons e es =>
              rw [hfs] at ho
              have ho' : (Except.ok
                  (⟨some (validateTXMB.fasta_failure_msg ff
                      (validateTXMB.report_filename_of record)),
                    [.table, .fasta],
                    [(validateTXMB.report_filename_of record, e :: es)]⟩ :
                    validateTXMB.TxmbOutcome) :
                  Except PyExn validateTXMB.TxmbOutcome) = .ok o := ho
              injection ho' with ho2
              subst ho2
              exact Option.noConfusion hres
            | nil => exact ⟨rfl, tf, ff, rfl, rfl, hts, hfs⟩

/-- Witness for C4 at three concrete manifests and stage functions: a manifest
with a dataset-name error (table and FASTA never invoked), a failing table
stage (FASTA never invoked), and an all-clean run (success, nothing
reported). -/
theorem txmb_stage_short_circuit_witness :
    validateTXMB.validate_txmb
        ["REFERENCEDATASETNAME bad$name", "LOCALTAXONOMY NCBI",
         "FASTA f.fasta.gz", "TABLE t.tsv.gz"]
        (fun _ _ _ => ([], ["id1"])) (fun _ _ => []) =
      .ok ⟨some (validateTXMB.record_failure_msg
              (validateTXMB.report_filename_of
                [("REFERENCEDATASETNAME", "bad$name"),
                 ("LOCALTAXONOMY", "NCBI"), ("FASTA", "f.fasta.gz"),
                 ("TABLE", "t.tsv.gz")])), [],
           [(validateTXMB.report_filename_of
               [("REFERENCEDATASETNAME", "bad$name"),
                ("LOCALTAXONOMY", "NCBI"), ("FASTA", "f.fasta.gz"),
                ("TABLE", "t.tsv.gz")],
             ["Value entered for 'reference_dataset_name' does not match regex '^[A-Za-z0-9_]+$'"])]⟩
    ∧ validateTXMB.validate_txmb
        ["REFERENCEDATASETNAME test_name", "LOCALTAXONOMY NCBI",
         "FASTA f.fasta.gz", "TABLE t.tsv.gz"]
        (fun _ _ _ => (["table error"], [])) (fun _ _ => []) =
      .ok ⟨some (validateTXMB.table_failure_msg "t.tsv.gz"
              (validateTXMB.report_filename_of
                [("REFERENCEDATASETNAME", "test_name"),
                 ("LOCALTAXONOMY", "NCBI"), ("FASTA", "f.fasta.gz"),
                 ("TABLE", "t.tsv.gz")])),
           [.table],
           [(validateTXMB.report_filename_of
               [("REFERENCEDATASETNAME", "test_name"),
                ("LOCALTAXONOMY", "NCBI"), ("FASTA", "f.fasta.gz"),
                ("TABLE", "t.tsv.gz")],
             ["table error"])]⟩
    ∧ validateTXMB.validate_txmb
        ["REFERENCEDATASETNAME test_name", "LOCALTAXONOMY NCBI",
         "FASTA f.fasta.gz", "TABLE t.tsv.gz"]
        (fun _ _ _ => ([], ["id1"])) (fun _ _ => []) =
      .ok ⟨none, [.table, .fasta], []⟩ := by
  refine ⟨?_, ?_, ?_⟩
  · exact (txmb_stage_short_circuit
      ["REFERENCEDATASETNAME bad$name", "LOCALTAXONOMY NCBI",
       "FASTA f.fasta.gz", "TABLE t.tsv.gz"]
      (fun _ _ _ => ([], ["id1"])) (fun _ _ => [])
      ["Value entered for 'reference_dataset_name' does not match regex '^[A-Za-z0-9_]+$'"]
      [("REFERENCEDATASETNAME", "bad$name"), ("LOCALTAXONOMY", "NCBI"),
       ("FASTA", "f.fasta.gz"), ("TABLE", "t.tsv.gz")]
      [] true rfl).1 (by decide)
  · exact (txmb_stage_short_circuit
      ["REFERENCEDATASETNAME test_name", "LOCALTAXONOMY NCBI",
       "FASTA f.fasta.gz", "TABLE t.tsv.gz"]
      (fun _ _ _ => (["table error"], [])) (fun _ _ => [])
      []
      [("REFERENCEDATASETNAME", "test_name"), ("LOCALTAXONOMY", "NCBI"),
       ("FASTA", "f.fasta.gz"), ("TABLE", "t.tsv.gz")]
      [] true rfl).2.1 "t.tsv.gz" rfl rfl (by decide)
  · exact (txmb_stage_short_circuit
      ["REFERENCEDATASETNAME test_name", "LOCALTAXONOMY NCBI",
       "FASTA f.fasta.gz", "TABLE t.tsv.gz"]
      (fun _ _ _ => ([], ["id1"])) (fun _ _ => [])
      []
      [("REFERENCEDATASETNAME", "test_name"), ("LOCALTAXONOMY", "NCBI"),
       ("FASTA", "f.fasta.gz"), ("TABLE", "t.tsv.gz")]
      [] true rfl).2.2.1 "t.tsv.gz" "f.fasta.gz" rfl rfl rfl rfl rfl

/-- A successful `index` lookup implies membership. -/
theorem indexOf?_some_mem (l : List String) (a : String) (i : Nat)
    (h : l.indexOf? a = some i) : a ∈ l := by
  by_contra hnot
  rw [List.indexOf?_eq_none_iff.mpr
        (fun x hx hbeq => hnot (by rwa [← eq_of_beq hbeq]))] at h
  cases h

/-- Every record header missing from the table list contributes its own
does-not-exist error to the reconciliation loop. -/
theorem reconcile_loop_missing_mem :
    ∀ (rec table : List String) (h : String), h ∈ rec → h ∉ table →
      validateMetadataTable.does_not_exist_msg h ∈
        (validateMetadataTable.reconcile_loop rec table).1 := by
  intro rec
  induction rec with
  | nil => intro table h hm _; cases hm
  | cons r t ih =>
    intro table h hm hnot
    unfold validateMetadataTable.reconcile_loop
    cases hidx : table.indexOf? r with
    | some i =>
      simp only [hidx]
      rcases List.mem_cons.mp hm with rfl | hmt
      · exact absurd (indexOf?_some_mem table h i hidx) hnot
      · exact ih (table.eraseIdx i) h hmt
          (fun hmem => hnot (List.mem_of_mem_eraseIdx hmem))
    | none =>
      simp only [hidx]
      rcases List.mem_cons.mp hm with rfl | hmt
      · exact List.mem_cons_self _ _
      · exact List.mem_cons_of_mem _ (ih table h hmt hnot)

/-- Claim C7: the four disjoint cases of the table/record custom-column
reconciliation; in the both-present case a length mismatch puts the
count-mismatch error first, each record-contract name absent from the table
contributes its own does-not-exist error, leftover table headers produce the
separate leftover error, and in the spec's Scenario C (two
declared columns, one matching table header) the output is exactly the
count-mismatch error plus the one error identifying the missing column
`ColB`. -/
theorem custom_columns_reconciliation_cases (table : List String)
    (record : PyDict) :
    (table = [] → record = [] →
      validateMetadataTable.validate_custom_columns table record = [])
    ∧ (table ≠ [] → record = [] →
      validateMetadataTable.validate_custom_columns table record =
        [validateMetadataTable.undeclared_msg])
    ∧ (table = [] → record ≠ [] →
      validateMetadataTable.validate_custom_columns table record =
        [validateMetadataTable.declared_unused_msg])
    ∧ (table ≠ [] → record ≠ [] →
      (record.map (fun p => p.1)).length ≠ table.length →
      ∃ rest, validateMetadataTable.validate_custom_columns table record =
        validateMetadataTable.count_mismatch_msg :: rest)
    ∧ (∀ h, table ≠ [] → record ≠ [] → h ∈ record.map (fun p => p.1) →
        h ∉ table →
        validateMetadataTable.does_not_exist_msg h ∈
          validateMetadataTable.validate_custom_columns table record)
    ∧ (table ≠ [] → record ≠ [] →
        (validateMetadataTable.reconcile_loop
          ((record.map (fun p => p.1)).insertionSort
            (fun a b => pyStrLe a b = true))
          (table.insertionSort (fun a b => pyStrLe a b = true))).2 ≠ [] →
        validateMetadataTable.leftover_msg
          (validateMetadataTable.reconcile_loop
            ((record.map (fun p => p.1)).insertionSort
              (fun a b => pyStrLe a b = true))
            (table.insertionSort (fun a b => pyStrLe a b = true))).2 ∈
          validateMetadataTable.validate_custom_columns table record)
    ∧ validateMetadataTable.validate_custom_columns ["ColA"]
        [("ColA", "d1"), ("ColB", "d2")] =
      [validateMetadataTable.count_mismatch_msg,
       validateMetadataTable.does_not_exist_msg "ColB"] := by
  refine ⟨?_, ?_, ?_, ?_, ?_, ?_, rfl⟩
  · intro h1 h2
    subst h1
    subst h2
    rfl
  · intro h1 h2
    subst h2
    cases table with
    | nil => exact absurd rfl h1
    | cons a ts => rfl
  · intro h1 h2
    subst h1
    cases record with
    | nil => exact absurd rfl h2
    | cons p ps => rfl
  · intro h1 h2 hlen
    cases table with
    | nil => exact absurd rfl h1
    | cons a ts =>
      cases record with
      | nil => exact absurd rfl h2
      | cons p ps =>
        unfold validateMetadataTable.validate_custom_columns
        simp only [List.isEmpty_cons, Bool.false_and, Bool.and_false,
          Bool.not_false, Bool.true_and, Bool.and_true, if_false,
          Bool.false_eq_true, ite_false]
        rw [if_pos]
        · exact ⟨_, rfl⟩
        · rw [List.length_insertionSort, List.length_insertionSort]
          simpa using hlen
  · intro h h1 h2 hmem hnot
    cases table with
    | nil => exact absurd rfl h1
    | cons a ts =>
      cases record with
      | nil => exact absurd rfl h2
      | cons p ps =>
        unfold validateMetadataTable.validate_custom_columns
        simp only [List.isEmpty_cons, Bool.false_and, Bool.and_false,
          Bool.not_false, Bool.true_and, Bool.and_true, Bool.false_eq_true,
          ite_false]
        have hmem' : h ∈ ((p :: ps).map (fun q => q.1)).insertionSort
            (fun a b => pyStrLe a b = true) :=
          (List.mem_insertionSort _).mpr hmem
        have hnot' : h ∉ (a :: ts).insertionSort
            (fun a b => pyStrLe a b = true) :=
          fun hc => hnot ((List.mem_insertionSort _).mp hc)
        have hloop := reconcile_loop_missing_mem _ _ h hmem' hnot'
        simp only [List.mem_append]
        exact Or.inl (Or.inr hloop)
  · intro h1 h2 hne
    cases table with
    | nil => exact absurd rfl h1
    | cons a ts =>
      cases record with
      | nil => exact absurd rfl h2
      | cons p ps =>
        unfold validateMetadataTable.validate_custom_columns
        simp only [List.isEmpty_cons, Bool.false_and, Bool.and_false,
          Bool.not_false, Bool.true_and, Bool.and_true, Bool.false_eq_true,
          ite_false]
        cases hL : (validateMetadataTable.reconcile_loop
            (((p :: ps).map (fun q => q.1)).insertionSort
              (fun a b => pyStrLe a b = true))
            ((a :: ts).insertionSort (fun a b => pyStrLe a b = true))).2 with
        | nil => exact absurd hL hne
        | cons e es =>
          simp only [hL, List.isEmpty_cons, Bool.false_eq_true, ite_false,
            List.mem_append]
          exact Or.inr (List.mem_singleton.mpr rfl)

/-- Witness for C7: the four case shapes and the missing-column membership,
each discharged at a concrete instance. -/
theorem custom_columns_reconciliation_cases_witness :
    validateMetadataTable.validate_custom_columns [] [] = []
    ∧ validateMetadataTable.validate_custom_columns ["x"] [] =
        [validateMetadataTable.undeclared_msg]
    ∧ validateMetadataTable.validate_custom_columns [] [("y", "d")] =
        [validateMetadataTable.declared_unused_msg]
    ∧ (∃ rest, validateMetadataTable.validate_custom_columns ["ColA"]
          [("ColA", "d1"), ("ColB", "d2")] =
        validateMetadataTable.count_mismatch_msg :: rest)
    ∧ validateMetadataTable.does_not_exist_msg "ColB" ∈
        validateMetadataTable.validate_custom_columns ["ColA"]
          [("ColA", "d1"), ("ColB", "d2")]
    ∧ validateMetadataTable.leftover_msg
        (validateMetadataTable.reconcile_loop
          ((([("Y", "d")] : PyDict).map (fun p => p.1)).insertionSort
            (fun a b => pyStrLe a b = true))
          ((["X"] : List String).insertionSort
            (fun a b => pyStrLe a b = true))).2 ∈
        validateMetadataTable.validate_custom_columns ["X"] [("Y", "d")] :=
  ⟨(custom_columns_reconciliation_cases [] []).1 rfl rfl,
   (custom_columns_reconciliation_cases ["x"] []).2.1 (by decide) rfl,
   (custom_columns_reconciliation_cases [] [("y", "d")]).2.2.1 rfl (by decide),
   (custom_columns_reconciliation_cases ["ColA"]
      [("ColA", "d1"), ("ColB", "d2")]).2.2.2.1 (by decide) (by decide)
     (by decide),
   (custom_columns_reconciliation_cases ["ColA"]
      [("ColA", "d1"), ("ColB", "d2")]).2.2.2.2.1 "ColB" (by decide)
     (by decide) (by decide) (by decide),
   (custom_columns_reconciliation_cases ["X"] [("Y", "d")]).2.2.2.2.2.1
     (by decide) (by decide) (by decide)⟩

/-- Witness for C8 at `"10..20"` (non-empty, no accession) and `""`. -/
theorem insdc_range_without_accession_witness :
    validateMetadataTable.validate_insdc_sequence_range "10..20" false =
      validateMetadataTable.range_without_accession_msg "10..20" ::
        (if validateMetadataTable.insdc_range_regex_match "10..20" then []
         else [validateMetadataTable.invalid_range_msg "10..20"])
    ∧ validateMetadataTable.validate_insdc_sequence_range "" true = [] :=
  ⟨(insdc_range_without_accession "10..20" false).2.1 (by decide),
   (insdc_range_without_accession "" true).1 rfl⟩
